import Mathlib

/-!
# Verification of the AI_Proctoring_System backend/frontend contract

Shallow embedding of the repository's Express routes
(`backend/routes/eventRoutes.js`, `backend/routes/sessionRoutes.js`, both
shipped variants), the Mongoose schemas (`backend/models/Event.js`,
`backend/models/Session.js`), and the face-classification part of the
frontend detection loop (`frontend/src/App.jsx`, `tick`).

Modelling conventions:
* JavaScript timestamps (`Date` values) are milliseconds-since-epoch `Nat`s.
* JavaScript numbers appearing in divisions (durations, face-area ratios)
  are modelled as exact rationals `ℚ`.
* Open-ended `metadata`/`details` bags are association lists built by
  in-order key insertion; `metaGet` returns the *last* binding for a key,
  which matches JavaScript object-literal / spread semantics where a later
  key assignment overrides an earlier one.
* The document store is the external capability the spec describes: a
  `DB` record holding the two collections as lists.  An event's `_id` is
  its insertion index in `DB.events`.  The store's `skip`/`limit` query
  modifiers are modelled as `List.drop`/`List.take`.
* A store write that the route performs inside its own `try` block (or
  whose failure the route must survive) takes an explicit `Bool` fault
  flag: `true` means the store call succeeds, `false` means the external
  store capability fails at exactly that call.  This lets us state what
  each route answers when a secondary write fails.
* Mongoose validation of `Event` documents (required fields and the closed
  `enum` lists of `Event.js`) is modelled by `eventValid`; `Event.create`
  and `Event.insertMany` reject invalid documents, which the routes'
  `catch` blocks turn into HTTP 500 responses.
* `SessionSchema` (`Session.js`) has no `lastActivity` path, so the
  `$set: { lastActivity: ... }` in the event routes is dropped by the
  store (Mongoose strict mode); the modelled session-side update is the
  event-reference push.
-/

namespace Proctoring

/-- A JSON-ish value stored in a `metadata`/`details` bag. -/
inductive MVal where
  | s (v : String)
  | b (v : Bool)
  | q (v : ℚ)
  | bag (v : List (String × MVal))

/-- An open key/value bag (`mongoose.Schema.Types.Mixed`), as an
insertion-ordered association list. -/
abbrev Meta := List (String × MVal)

/-- Key lookup with JavaScript object semantics: the last binding wins. -/
def metaGet (m : Meta) (k : String) : Option MVal :=
  (List.find? (fun p => p.1 == k) (List.reverse m)).map (fun p => p.2)

/-- `EventSchema.type` enum (`Event.js` lines 12-25). -/
def eventTypeEnum : List String :=
  ["session_start", "session_end", "session_pause", "session_resume",
   "no_face", "multiple_faces", "face_detected", "face_lost",
   "suspicious_object", "forbidden_object",
   "error", "warning", "info",
   "tab_switch", "window_resize", "copy_paste", "print_screen",
   "custom"]

/-- `EventSchema.severity` enum (`Event.js` lines 32-36). -/
def severityEnum : List String := ["info", "warning", "error", "critical"]

/-- `EventSchema.source` enum (`Event.js` lines 37-41). -/
def sourceEnum : List String :=
  ["system", "face_detection", "object_detection", "user_action", "api"]

/-- `SessionSchema.status` enum (richer variant, `Session.js` lines 25-29). -/
def sessionStatusEnum : List String := ["active", "completed", "terminated", "error"]

/-- A persisted `Event` document (`Event.js`).  The `screenshot` field
(`String`, default `null`, no validator) plays no role in any route and is
omitted. -/
structure Event where
  sessionId : String
  type : String
  timestamp : Nat
  severity : String
  source : String
  details : Meta
  metadata : Meta

/-- A persisted `Session` document (`Session.js`). -/
structure Session where
  sessionId : String
  candidateName : String
  examId : String
  startTime : Nat
  endTime : Option Nat
  status : String
  metadata : Meta
  events : List Nat
  duration : ℚ

/-- The two collections of the document store. -/
structure DB where
  sessions : List Session
  events : List Event

/-- Mongoose document validation run by `Event.create` / `Event.insertMany`:
`sessionId` and `type` are `required` strings, and `type`, `severity`,
`source` must lie in their closed `enum` lists. -/
def eventValid (e : Event) : Bool :=
  (!(e.sessionId == "")) && (!(e.type == "")) &&
    eventTypeEnum.contains e.type &&
    severityEnum.contains e.severity &&
    sourceEnum.contains e.source

/-- `Session.findOne({ sessionId })`. -/
def findSession (db : DB) (sid : String) : Option Session :=
  db.sessions.find? (fun s => s.sessionId == sid)

/-- JavaScript truthiness of an optional string (`!x` is true for a missing
field and for the empty string). -/
def truthy : Option String → Bool
  | none => false
  | some s => !(s == "")

/-- `x ? new Date(x) : new Date()`: a missing timestamp and the falsy
timestamp `0` both become the server clock. -/
def tsOrNow (t : Option Nat) (now : Nat) : Nat :=
  match t with
  | none => now
  | some v => if v == 0 then now else v

/-- `event.x || d`: JavaScript `||` defaulting on an optional string,
replacing both a missing and an empty string. -/
def orDefault (x : Option String) (d : String) : String :=
  if truthy x then x.getD "" else d

/-- Update the first session matching `p` (Mongo `findOneAndUpdate`
touches a single document). -/
def updateFirst (p : Session → Bool) (f : Session → Session) : List Session → List Session
  | [] => []
  | x :: xs => if p x then f x :: xs else x :: updateFirst p f xs

/-- `$push: { events: eid }` on the session with the given id. -/
def pushEventRef (db : DB) (sid : String) (eids : List Nat) : DB :=
  { db with
    sessions := updateFirst (fun s => s.sessionId == sid)
      (fun s => { s with events := s.events ++ eids }) db.sessions }

/-- Server-side metadata enrichment shared by the two event-logging routes:
the client bag is spread first and the server-observed `ip` and `userAgent`
keys are inserted after it, so they override any client-supplied
`ip`/`userAgent` keys. -/
def enrich (m : Meta) (ip ua : String) : Meta :=
  m ++ ([("ip", MVal.s ip), ("userAgent", MVal.s ua)] : Meta)

/-- Caller-observed request origin. -/
structure Request where
  ip : String
  userAgent : String

/-! ## Event routes (`eventRoutes.js`, first document) -/

/-- Body of `POST /api/events`. -/
structure LogOneBody where
  sessionId : Option String
  type : Option String
  details : Option Meta
  timestamp : Option Nat
  severity : Option String
  source : Option String
  metadata : Option Meta

/-- Response of `POST /api/events`. -/
structure LogOneResp where
  status : Nat
  success : Bool
  eventId : Option Nat
  timestamp : Option Nat

/-- The event document `POST /api/events` hands to `Event.create`
(`eventRoutes.js` lines 31-43), after the destructuring defaults
`severity = 'info'`, `source = 'frontend'`, `metadata = {}` of line 9. -/
def mkLogOneEvent (body : LogOneBody) (req : Request) (now : Nat) : Event :=
  { sessionId := body.sessionId.getD ""
    type := body.type.getD ""
    details := body.details.getD []
    timestamp := tsOrNow body.timestamp now
    severity := body.severity.getD "info"
    source := body.source.getD "frontend"
    metadata := enrich (body.metadata.getD []) req.ip req.userAgent }

/-- `POST /api/events` (`eventRoutes.js` lines 7-71).  `sessionUpdateOk`
injects a store failure at the `Session.findByIdAndUpdate` call; a failure
there (like any thrown store error) lands in the route's `catch`, which
answers 500. -/
def logOne (db : DB) (body : LogOneBody) (req : Request) (now : Nat)
    (sessionUpdateOk : Bool) : LogOneResp × DB :=
  if !(truthy body.sessionId && truthy body.type) then
    ({ status := 400, success := false, eventId := none, timestamp := none }, db)
  else
    let sid := body.sessionId.getD ""
    match findSession db sid with
    | none => ({ status := 404, success := false, eventId := none, timestamp := none }, db)
    | some _ =>
      let ev := mkLogOneEvent body req now
      if !eventValid ev then
        ({ status := 500, success := false, eventId := none, timestamp := none }, db)
      else
        let eid := db.events.length
        let db1 : DB := { db with events := db.events ++ [ev] }
        if !sessionUpdateOk then
          ({ status := 500, success := false, eventId := none, timestamp := none }, db1)
        else
          ({ status := 201, success := true, eventId := some eid,
             timestamp := some ev.timestamp }, pushEventRef db1 sid [eid])

/-- One element of the `events` array of `POST /api/events/batch`. -/
structure BatchEventBody where
  type : Option String
  details : Option Meta
  timestamp : Option Nat
  severity : Option String
  source : Option String
  metadata : Option Meta

/-- Response of `POST /api/events/batch`. -/
structure LogBatchResp where
  status : Nat
  success : Bool
  count : Option Nat
  eventIds : Option (List Nat)

/-- Per-element defaulting of `POST /api/events/batch`
(`eventRoutes.js` lines 95-108): spread the client event, force the route's
`sessionId`, default `timestamp`/`source`/`severity`/`details`, and enrich
`metadata` with `ip`, `userAgent` and `batch: true`. -/
def mkBatchEvent (sid : String) (req : Request) (now : Nat) (e : BatchEventBody) : Event :=
  { sessionId := sid
    type := e.type.getD ""
    timestamp := tsOrNow e.timestamp now
    source := orDefault e.source "frontend"
    severity := orDefault e.severity "info"
    details := e.details.getD []
    metadata := (e.metadata.getD []) ++
      ([("ip", MVal.s req.ip), ("userAgent", MVal.s req.userAgent),
        ("batch", MVal.b true)] : Meta) }

/-- `POST /api/events/batch` (`eventRoutes.js` lines 74-140).
`Event.insertMany` validates every document first and inserts nothing when
any of them fails validation (the route's `catch` then answers 500). -/
def logBatch (db : DB) (sessionId : Option String) (events : Option (List BatchEventBody))
    (req : Request) (now : Nat) : LogBatchResp × DB :=
  let evs := events.getD []
  if !(truthy sessionId) || evs.isEmpty then
    ({ status := 400, success := false, count := none, eventIds := none }, db)
  else
    let sid := sessionId.getD ""
    match findSession db sid with
    | none => ({ status := 404, success := false, count := none, eventIds := none }, db)
    | some _ =>
      let prepared := evs.map (mkBatchEvent sid req now)
      if !(prepared.all eventValid) then
        ({ status := 500, success := false, count := none, eventIds := none }, db)
      else
        let ids := (List.range prepared.length).map (fun i => db.events.length + i)
        let db1 : DB := { db with events := db.events ++ prepared }
        ({ status := 201, success := true, count := some prepared.length,
           eventIds := some ids }, pushEventRef db1 sid ids)

/-- A `type`/`severity` query-string filter: absent, a single value, or an
array (`$in` set membership). -/
inductive QFilter where
  | absent
  | one (v : String)
  | many (vs : List String)

/-- Query string of `GET /api/events/session/:sessionId` before the
destructuring defaults of `eventRoutes.js` lines 146-155. -/
structure RawQuery where
  limit : Option Nat
  offset : Option Nat
  type : QFilter
  severity : QFilter
  startDate : Option Nat
  endDate : Option Nat
  sortBy : Option String
  sortOrder : Option String

/-- Whether an event matches one query filter. -/
def qfMatch (f : QFilter) (v : String) : Bool :=
  match f with
  | .absent => true
  | .one w => v == w
  | .many ws => ws.contains v

/-- The Mongo `query` object built in `eventRoutes.js` lines 157-181:
sessionId plus optional type / severity / inclusive timestamp range. -/
def matchesQuery (sid : String) (q : RawQuery) (e : Event) : Bool :=
  (e.sessionId == sid) && qfMatch q.type e.type && qfMatch q.severity e.severity &&
    (match q.startDate with | none => true | some d => d ≤ e.timestamp) &&
    (match q.endDate with | none => true | some d => e.timestamp ≤ d)

/-- The sort key named by `sortBy`.  Only `timestamp` is a schema-typed
numeric path used by the application; other field names are modelled
coarsely by a constant key (the pagination facts proved below do not
depend on the comparator). -/
def sortKeyVal (sortBy : String) (e : Event) : Nat :=
  if sortBy == "timestamp" then e.timestamp else 0

/-- Comparator of `eventRoutes.js` line 185: ascending exactly when
`sortOrder === 'asc'`, otherwise descending. -/
def sortLE (sortBy sortOrder : String) (a b : Event) : Bool :=
  if sortOrder == "asc" then sortKeyVal sortBy a ≤ sortKeyVal sortBy b
  else sortKeyVal sortBy b ≤ sortKeyVal sortBy a

/-- Insert into a sorted list (store-side sort, modelled as insertion sort). -/
def insertSorted (le : Event → Event → Bool) (e : Event) : List Event → List Event
  | [] => [e]
  | x :: xs => if le e x then e :: x :: xs else x :: insertSorted le e xs

/-- Sort the filtered events with the requested comparator. -/
def sortEvents (le : Event → Event → Bool) : List Event → List Event
  | [] => []
  | x :: xs => insertSorted le x (sortEvents le xs)

/-- Response of `GET /api/events/session/:sessionId`. -/
structure QueryResp where
  status : Nat
  success : Bool
  count : Nat
  total : Nat
  hasMore : Bool
  events : List Event

/-- `GET /api/events/session/:sessionId` (`eventRoutes.js` lines 143-213):
defaults `limit = 100`, `offset = 0`, `sortBy = 'timestamp'`,
`sortOrder = 'desc'`; the page is `find(query).sort(...).skip(offset)
.limit(limit)` and `total` is `countDocuments(query)` over the same query. -/
def queryBySession (db : DB) (sid : String) (q : RawQuery) : QueryResp :=
  let limit := q.limit.getD 100
  let offset := q.offset.getD 0
  let sortBy := q.sortBy.getD "timestamp"
  let sortOrder := q.sortOrder.getD "desc"
  let filtered := db.events.filter (matchesQuery sid q)
  let page := ((sortEvents (sortLE sortBy sortOrder) filtered).drop offset).take limit
  let total := filtered.length
  { status := 200, success := true, count := page.length, total := total,
    hasMore := decide (offset + page.length < total), events := page }

/-! ## Session routes

Two variants ship in the repository: the legacy `sessionRoutes.js` and a
richer variant (the second document of `eventRoutes.js`).  Both mount
`POST /start` (or `POST /`), `POST /end` and `GET /:sessionId` under
`/api/session`. -/

/-- Response of the start routes. -/
structure StartResp where
  status : Nat
  success : Bool
  sessionId : Option String

/-- Response of the end routes. -/
structure EndResp where
  status : Nat
  success : Bool
  sessionId : Option String

/-- `POST /api/session/start`, legacy variant (`sessionRoutes.js` lines
8-40).  The `session_start` `Event.create` is *not* wrapped in an inner
`try`: when the store fails there (`eventCreateOk = false`) the error
reaches the route's `catch` and the route answers 500 — after the session
was already saved. -/
def startLegacy (db : DB) (candidateName : Option String) (newId : String) (now : Nat)
    (eventCreateOk : Bool) : StartResp × DB :=
  if !(truthy candidateName) then
    ({ status := 400, success := false, sessionId := none }, db)
  else
    let name := candidateName.getD ""
    let s : Session :=
      { sessionId := newId, candidateName := name, examId := "default-exam",
        startTime := now, endTime := none, status := "active",
        metadata := [], events := [], duration := 0 }
    let db1 : DB := { db with sessions := db.sessions ++ [s] }
    if !eventCreateOk then
      ({ status := 500, success := false, sessionId := none }, db1)
    else
      let ev : Event :=
        { sessionId := newId, type := "session_start", timestamp := now,
          severity := "info", source := "system",
          details := [("candidateName", MVal.s name)], metadata := [] }
      ({ status := 201, success := true, sessionId := some newId },
       { db1 with events := db1.events ++ [ev] })

/-- `POST /api/session`, richer variant (second document of
`eventRoutes.js`, lines 231-296).  Here the `session_start` `Event.create`
sits in its own `try`/`catch` whose comment reads
"Don't fail the request if event logging fails": when the store fails
there (`eventCreateOk = false`) the error is swallowed and the route still
answers 201. -/
def startRich (db : DB) (candidateName examId : Option String) (metadata : Option Meta)
    (newId : String) (now : Nat) (eventCreateOk : Bool) : StartResp × DB :=
  if !(truthy candidateName) then
    ({ status := 400, success := false, sessionId := none }, db)
  else
    let name := candidateName.getD ""
    let exam := orDefault examId "default-exam"
    let s : Session :=
      { sessionId := newId, candidateName := name, examId := exam,
        startTime := now, endTime := none, status := "active",
        metadata := metadata.getD [], events := [], duration := 0 }
    let db1 : DB := { db with sessions := db.sessions ++ [s] }
    let db2 : DB :=
      if eventCreateOk then
        { db1 with events := db1.events ++
            [{ sessionId := newId, type := "session_start", timestamp := now,
               severity := "info", source := "system",
               details := ([("candidateName", MVal.s name), ("examId", MVal.s exam)] : Meta)
                 ++ metadata.getD [],
               metadata := [] }] }
      else db1
    ({ status := 201, success := true, sessionId := some newId }, db2)

/-- `POST /api/session/end`, legacy variant (`sessionRoutes.js` lines
43-78): `findOneAndUpdate({ sessionId, status: 'active' }, ...)` — the
filter requires the session to still be `active`, so an unknown *or
already-ended* id yields 404.  The `session_end` event's details carry
`duration: (new Date() - session.startTime) / 1000`; `tUpdate` is the
clock at the update, `tEvent` at the event write.  The event write is not
guarded: a store failure there (`eventCreateOk = false`) becomes a 500. -/
def endLegacy (db : DB) (sessionId : Option String) (tUpdate tEvent : Nat)
    (eventCreateOk : Bool) : EndResp × DB :=
  if !(truthy sessionId) then
    ({ status := 400, success := false, sessionId := none }, db)
  else
    let sid := sessionId.getD ""
    match db.sessions.find? (fun s => s.sessionId == sid && s.status == "active") with
    | none => ({ status := 404, success := false, sessionId := none }, db)
    | some s =>
      let db1 : DB := { db with
        sessions := updateFirst (fun x => x.sessionId == sid && x.status == "active")
          (fun x => { x with status := "ended", endTime := some tUpdate }) db.sessions }
      if !eventCreateOk then
        ({ status := 500, success := false, sessionId := none }, db1)
      else
        let ev : Event :=
          { sessionId := sid, type := "session_end", timestamp := tEvent,
            severity := "info", source := "system",
            details := [("duration", MVal.q (((tEvent : ℚ) - (s.startTime : ℚ)) / 1000))],
            metadata := [] }
        ({ status := 200, success := true, sessionId := none },
         { db1 with events := db1.events ++ [ev] })

/-- `POST /api/session/end`, richer variant (second document of
`eventRoutes.js`, lines 299-364): `findOneAndUpdate({ sessionId },
updateData, { upsert: false })` — the filter does *not* require an active
status, so any existing session matches, whatever its status, and only an
unknown id yields 404.  `updateData` sets `status`, `endTime`,
`metadata.endReason`, `metadata.endData` and nothing else (in particular
it never writes `duration`).  The `session_end` event write is wrapped in
its own `try`/`catch` and swallowed on failure. -/
def endRich (db : DB) (sessionId endReason : Option String) (endData : Option Meta)
    (tUpdate tEvent : Nat) (eventCreateOk : Bool) : EndResp × DB :=
  if !(truthy sessionId) then
    ({ status := 400, success := false, sessionId := none }, db)
  else
    let sid := sessionId.getD ""
    let reason := orDefault endReason "user_ended"
    match findSession db sid with
    | none => ({ status := 404, success := false, sessionId := none }, db)
    | some _ =>
      let upd : Session → Session := fun x =>
        { x with
          status := "completed"
          endTime := some tUpdate
          metadata := x.metadata ++
            ([("endReason", MVal.s reason), ("endData", MVal.bag (endData.getD []))] : Meta) }
      let db1 : DB := { db with
        sessions := updateFirst (fun x => x.sessionId == sid) upd db.sessions }
      let db2 : DB :=
        if eventCreateOk then
          { db1 with events := db1.events ++
              [{ sessionId := sid, type := "session_end", timestamp := tEvent,
                 severity := "info", source := "system",
                 details := ([("status", MVal.s "completed"), ("endReason", MVal.s reason)] : Meta)
                   ++ endData.getD [],
                 metadata := [] }] }
        else db1
      ({ status := 200, success := true, sessionId := some sid }, db2)

/-- Response of `GET /api/session/:sessionId`. -/
structure GetResp where
  status : Nat
  session : Option Session
  events : List Event

/-- `GET /api/session/:sessionId` (identical in both route variants):
the session record plus its events sorted by timestamp descending.  A pure
read: it recomputes nothing and mutates nothing. -/
def getSession (db : DB) (sid : String) : GetResp :=
  match findSession db sid with
  | none => { status := 404, session := none, events := [] }
  | some s =>
    { status := 200, session := some s,
      events := sortEvents (sortLE "timestamp" "desc")
        (db.events.filter (fun e => e.sessionId == sid)) }

/-! ## Frontend detection loop (`App.jsx`) -/

/-- A face-detection bounding box (`detection.detection.box`). -/
structure Box where
  x : ℚ
  y : ℚ
  width : ℚ
  height : ℚ

/-- The `STATUS` strings of `App.jsx` lines 20-27 used by the tick. -/
def STATUS_NO_FACE : String := "No Face Detected"

def STATUS_MULTIPLE_FACES : String := "Multiple Faces Detected"

def STATUS_FOCUSED : String := "Focused"

/-- The face-classification section of `tick` (`App.jsx` lines 120-162):
given the face detections of this tick and the canvas (frame) dimensions,
the status text set, and the message logged via `logEvent` if any.  The
zero-face and many-face branches log an event; the single-face branch only
classifies by the face-area-to-frame-area ratio with thresholds 0.1 and
0.3. -/
def tickFaceStatus (detections : List Box) (canvasWidth canvasHeight : ℚ) :
    String × Option String :=
  if detections.length == 0 then
    (STATUS_NO_FACE, some "No face detected")
  else if detections.length > 1 then
    (STATUS_MULTIPLE_FACES, some "Multiple faces detected")
  else
    let box := detections.headD ⟨0, 0, 0, 0⟩
    let faceArea := box.width * box.height
    let frameArea := canvasWidth * canvasHeight
    let faceRatio := faceArea / frameArea
    if faceRatio < 1/10 then ("Move closer", none)
    else if faceRatio > 3/10 then ("Move back", none)
    else (STATUS_FOCUSED, none)

/-! ## Concrete fixtures -/

/-- A concrete caller. -/
def reqA : Request := { ip := "203.0.113.5", userAgent := "agent-1" }

/-- A concrete active session. -/
def sAlice : Session :=
  { sessionId := "s1", candidateName := "Alice", examId := "default-exam",
    startTime := 0, endTime := none, status := "active",
    metadata := [], events := [], duration := 0 }

/-- A concrete already-completed session. -/
def sDone : Session :=
  { sessionId := "s2", candidateName := "Bob", examId := "default-exam",
    startTime := 0, endTime := some 5000, status := "completed",
    metadata := [], events := [], duration := 0 }

/-- A store holding one active session. -/
def dbOne : DB := { sessions := [sAlice], events := [] }

/-- A store holding one already-completed session. -/
def dbDone : DB := { sessions := [sDone], events := [] }

/-- A fully valid `POST /api/events` body for session `s1`. -/
def bodyValid : LogOneBody :=
  { sessionId := some "s1", type := some "no_face", details := none,
    timestamp := none, severity := none, source := some "api", metadata := none }

/-- A `POST /api/events` body whose client metadata tries to spoof the
stored `ip` and `userAgent`. -/
def bodyHostile : LogOneBody :=
  { sessionId := some "s1", type := some "no_face", details := none,
    timestamp := none, severity := none, source := some "api",
    metadata := some [("ip", MVal.s "6.6.6.6"), ("userAgent", MVal.s "spoofed")] }

/-- A valid batch element (explicit in-enum `source`). -/
def batchElemValid : BatchEventBody :=
  { type := some "tab_switch", details := none, timestamp := some 42,
    severity := some "warning", source := some "user_action",
    metadata := some [("ip", MVal.s "6.6.6.6")] }

/-- `POST /api/events` body with an out-of-enumeration `type` for the
existing session `s1`. -/
def bodyBadType : LogOneBody :=
  { sessionId := some "s1", type := some "definitely_not_a_type", details := none,
    timestamp := none, severity := none, source := some "api", metadata := none }

/-- `POST /api/events` body missing `type`. -/
def bodyNoType : LogOneBody :=
  { sessionId := some "s1", type := none, details := none,
    timestamp := none, severity := none, source := none, metadata := none }

/-- `POST /api/events` body with an out-of-enumeration `type` and an
unknown session. -/
def bodyBadTypeNoSession : LogOneBody :=
  { sessionId := some "nope", type := some "bad_type", details := none,
    timestamp := none, severity := none, source := none, metadata := none }

/-- `POST /api/events` body that omits `source`. -/
def bodyNoSource : LogOneBody :=
  { sessionId := some "s1", type := some "no_face", details := none,
    timestamp := none, severity := none, source := none, metadata := none }

/-- Batch element that omits `source`. -/
def batchElemNoSource : BatchEventBody :=
  { type := some "no_face", details := none, timestamp := none,
    severity := none, source := none, metadata := none }

/-! ## Helper lemmas -/

lemma length_insertSorted (le : Event → Event → Bool) (e : Event) :
    ∀ l : List Event, (insertSorted le e l).length = l.length + 1 := by
  intro l
  induction l with
  | nil => rfl
  | cons x xs ih =>
    simp only [insertSorted]
    split
    · simp
    · simp [ih]

lemma length_sortEvents (le : Event → Event → Bool) :
    ∀ l : List Event, (sortEvents le l).length = l.length := by
  intro l
  induction l with
  | nil => rfl
  | cons x xs ih => simp [sortEvents, length_insertSorted, ih]

/-- `updateFirst` preserves any per-session observation that `f` preserves. -/
lemma map_updateFirst {α : Type} (g : Session → α) (p : Session → Bool)
    (f : Session → Session) (h : ∀ s, g (f s) = g s) :
    ∀ l : List Session, (updateFirst p f l).map g = l.map g := by
  intro l
  induction l with
  | nil => rfl
  | cons x xs ih =>
    simp only [updateFirst]
    split
    · simp [h]
    · simp [ih]

/-- After the legacy end update, no session with the ended id is still
`active` (given the store's unique-id invariant), so a second
`findOneAndUpdate({ sessionId, status: 'active' })` matches nothing. -/
lemma find?_active_after_end (sid : String) (t : Nat) :
    ∀ l : List Session, l.Pairwise (fun a b => a.sessionId ≠ b.sessionId) →
      List.find? (fun s => s.sessionId == sid && s.status == "active")
        (updateFirst (fun x => x.sessionId == sid && x.status == "active")
          (fun x => { x with status := "ended", endTime := some t }) l) = none := by
  intro l hpw
  induction l with
  | nil => rfl
  | cons x xs ih =>
    rcases List.pairwise_cons.mp hpw with ⟨hx, hxs⟩
    by_cases hpx : (x.sessionId == sid && x.status == "active") = true
    · have hxid : x.sessionId = sid := beq_iff_eq.mp ((Bool.and_eq_true _ _).mp hpx).1
      simp only [updateFirst]
      rw [if_pos hpx]
      rw [List.find?_cons_of_neg _ (by simp)]
      apply List.find?_eq_none.mpr
      intro y hy hpy
      have hyid : y.sessionId = sid := beq_iff_eq.mp ((Bool.and_eq_true _ _).mp hpy).1
      exact hx y hy (hxid.trans hyid.symm)
    · simp only [updateFirst]
      rw [if_neg hpx]
      rw [@List.find?_cons_of_neg _ (fun s => s.sessionId == sid && s.status == "active") x _ hpx]
      exact ih hxs

lemma metaGet_enrich_ip (m : Meta) (ip ua : String) :
    metaGet (enrich m ip ua) "ip" = some (MVal.s ip) := by
  simp [enrich, metaGet, List.reverse_append, List.find?]

lemma metaGet_enrich_ua (m : Meta) (ip ua : String) :
    metaGet (enrich m ip ua) "userAgent" = some (MVal.s ua) := by
  simp [enrich, metaGet, List.reverse_append, List.find?]

lemma metaGet_batch_ip (m : Meta) (ip ua : String) :
    metaGet (m ++ ([("ip", MVal.s ip), ("userAgent", MVal.s ua),
      ("batch", MVal.b true)] : Meta)) "ip" = some (MVal.s ip) := by
  simp [metaGet, List.reverse_append, List.find?]

lemma metaGet_batch_ua (m : Meta) (ip ua : String) :
    metaGet (m ++ ([("ip", MVal.s ip), ("userAgent", MVal.s ua),
      ("batch", MVal.b true)] : Meta)) "userAgent" = some (MVal.s ua) := by
  simp [metaGet, List.reverse_append, List.find?]

lemma metaGet_batch_marker (m : Meta) (ip ua : String) :
    metaGet (m ++ ([("ip", MVal.s ip), ("userAgent", MVal.s ua),
      ("batch", MVal.b true)] : Meta)) "batch" = some (MVal.b true) := by
  simp [metaGet, List.reverse_append, List.find?]

/-! ## Claim C1 -/

/-- Claim C1 as stated is false: in the richer `POST /api/session/end`
variant the `findOneAndUpdate` filter is `{ sessionId }` with no status
condition, so ending the same session twice returns success (200,
`success: true`) both times — the second End of an already-completed
session does not return 404. -/
theorem C1_counterexample_double_end_succeeds :
    (endRich dbOne (some "s1") none none 5000 5000 true).1.status = 200 ∧
    (endRich dbOne (some "s1") none none 5000 5000 true).1.success = true ∧
    (endRich (endRich dbOne (some "s1") none none 5000 5000 true).2
      (some "s1") none none 9000 9000 true).1.status = 200 ∧
    (endRich (endRich dbOne (some "s1") none none 5000 5000 true).2
      (some "s1") none none 9000 9000 true).1.success = true := by
  exact ⟨rfl, rfl, rfl, rfl⟩

/-- C1 amended: the legacy `POST /api/session/end` behaves as the claim
says — an unknown *or already-ended* id answers 404 and, under the store's
unique-`sessionId` invariant, a successful End makes a second End answer
404.  The richer variant answers 404 only for an unknown id; any existing
session, terminal or not, is ended again with success. -/
theorem C1_end_semantics (db : DB) (sid : String) (t1 t2 t3 t4 : Nat)
    (hsid : sid ≠ "") :
    ((db.sessions.find? (fun s => s.sessionId == sid && s.status == "active")) = none →
      (endLegacy db (some sid) t1 t2 true).1.status = 404 ∧
      (endLegacy db (some sid) t1 t2 true).1.success = false)
    ∧ (db.sessions.Pairwise (fun a b => a.sessionId ≠ b.sessionId) →
      (endLegacy db (some sid) t1 t2 true).1.success = true →
      (endLegacy (endLegacy db (some sid) t1 t2 true).2 (some sid) t3 t4 true).1.status = 404)
    ∧ (findSession db sid = none →
      (endRich db (some sid) none none t1 t2 true).1.status = 404)
    ∧ (∀ s, findSession db sid = some s →
      (endRich db (some sid) none none t1 t2 true).1.status = 200 ∧
      (endRich db (some sid) none none t1 t2 true).1.success = true) := by
  have htr : truthy (some sid) = true := by
    simp [truthy, hsid]
  refine ⟨?_, ?_, ?_, ?_⟩
  · intro hfind
    simp [endLegacy, htr, hfind]
  · intro hpw hsucc
    rcases hfind : db.sessions.find? (fun s => s.sessionId == sid && s.status == "active")
      with _ | s
    · exfalso
      simp [endLegacy, htr, hfind] at hsucc
    · have hsess : (endLegacy db (some sid) t1 t2 true).2.sessions =
          updateFirst (fun x => x.sessionId == sid && x.status == "active")
            (fun x => { x with status := "ended", endTime := some t1 }) db.sessions := by
        simp [endLegacy, htr, hfind]
      have hfind2 : List.find? (fun s => s.sessionId == sid && s.status == "active")
          (endLegacy db (some sid) t1 t2 true).2.sessions = none := by
        rw [hsess]
        exact find?_active_after_end sid t1 db.sessions hpw
      generalize hgen : (endLegacy db (some sid) t1 t2 true).2 = db2 at hfind2 ⊢
      simp [endLegacy, htr, hfind2]
  · intro hfind
    simp [endRich, htr, hfind]
  · intro s hfind
    simp [endRich, htr, hfind]

/-- Concrete instance of `C1_end_semantics`: legacy End of an
already-completed session answers 404; legacy double-End answers 404 the
second time; richer End of an already-completed session answers 200. -/
theorem C1_end_semantics_witness :
    (endLegacy dbDone (some "s2") 1000 1001 true).1.status = 404 ∧
    (endLegacy (endLegacy dbOne (some "s1") 5 6 true).2 (some "s1") 7 8 true).1.status = 404 ∧
    (endRich dbDone (some "s2") none none 5000 5001 true).1.status = 200 := by
  refine ⟨?_, ?_, ?_⟩
  · exact ((C1_end_semantics dbDone "s2" 1000 1001 0 0 (by decide)).1 (by rfl)).1
  · exact (C1_end_semantics dbOne "s1" 5 6 7 8 (by decide)).2.1 (by simp [dbOne]) (by rfl)
  · exact ((C1_end_semantics dbDone "s2" 5000 5001 0 0 (by decide)).2.2.2 sDone (by rfl)).1

/-! ## Claim C2 -/

/-- Claim C2 as stated is false: ending a session never writes its
`duration` field.  For the session started at time 0 and ended (richer
variant) at 10000 ms, the stored record has `endTime = 10000` yet
`duration = 0`, while `(endTime - startTime)` in seconds is `10 ≠ 0`. -/
theorem C2_counterexample_duration_stays_zero :
    ((endRich dbOne (some "s1") none none 10000 10000 true).2.sessions.find?
      (fun s => s.sessionId == "s1")).map Session.duration = some 0 ∧
    ((endRich dbOne (some "s1") none none 10000 10000 true).2.sessions.find?
      (fun s => s.sessionId == "s1")).map Session.endTime = some (some 10000) ∧
    ((10000 : ℚ) - 0) / 1000 ≠ 0 := by
  refine ⟨rfl, rfl, by norm_num⟩

/-- C2 amended: neither End route ever writes the `duration` field — every
session keeps the value it already had (the schema default 0 for sessions
created by either Start route), however far apart `startTime` and
`endTime` are.  The elapsed seconds are recorded only in the legacy
variant's `session_end` *event* details, as `(eventTime - startTime) /
1000`.  `Get` is a pure read, so repeated reads trivially observe the same
stored value. -/
theorem C2_duration_never_written (db : DB) (sid reason : Option String) (m : Option Meta)
    (name examId : Option String) (newId : String)
    (t1 t2 t3 t4 t5 : Nat) (ok1 ok2 ok3 ok4 : Bool) :
    ((endRich db sid reason m t1 t2 ok1).2.sessions.map Session.duration
      = db.sessions.map Session.duration)
    ∧ ((endLegacy db sid t3 t4 ok2).2.sessions.map Session.duration
      = db.sessions.map Session.duration)
    ∧ (∀ s ∈ (startLegacy db name newId t5 ok3).2.sessions, s ∈ db.sessions ∨ s.duration = 0)
    ∧ (∀ s ∈ (startRich db name examId m newId t5 ok4).2.sessions,
        s ∈ db.sessions ∨ s.duration = 0)
    ∧ (∀ s, truthy sid = true →
        db.sessions.find? (fun x => x.sessionId == sid.getD "" && x.status == "active")
          = some s →
        ((endLegacy db sid t3 t4 true).2.events.drop db.events.length).map Event.details
          = [[("duration", MVal.q (((t4 : ℚ) - (s.startTime : ℚ)) / 1000))]]) := by
  refine ⟨?_, ?_, ?_, ?_, ?_⟩
  · unfold endRich
    split
    · rfl
    · rcases hfind : findSession db (sid.getD "") with _ | s
      · simp [hfind]
      · simp only [hfind]
        split <;> (refine map_updateFirst Session.duration _ _ (fun x => ?_) db.sessions; rfl)
  · unfold endLegacy
    split
    · rfl
    · rcases hfind : db.sessions.find?
          (fun s => s.sessionId == sid.getD "" && s.status == "active") with _ | s
      · simp [hfind]
      · simp only [hfind]
        split <;> (refine map_updateFirst Session.duration _ _ (fun x => ?_) db.sessions; rfl)
  · intro s hs
    simp only [startLegacy] at hs
    split at hs
    · exact Or.inl hs
    · split at hs
      · rcases List.mem_append.mp hs with h | h
        · exact Or.inl h
        · obtain rfl := List.mem_singleton.mp h
          exact Or.inr rfl
      · rcases List.mem_append.mp hs with h | h
        · exact Or.inl h
        · obtain rfl := List.mem_singleton.mp h
          exact Or.inr rfl
  · intro s hs
    simp only [startRich] at hs
    split at hs
    · exact Or.inl hs
    · split at hs
      · rcases List.mem_append.mp hs with h | h
        · exact Or.inl h
        · obtain rfl := List.mem_singleton.mp h
          exact Or.inr rfl
      · rcases List.mem_append.mp hs with h | h
        · exact Or.inl h
        · obtain rfl := List.mem_singleton.mp h
          exact Or.inr rfl
  · intro s htr hfind
    simp [endLegacy, htr, hfind, List.drop_left]

/-- Concrete instance of `C2_duration_never_written`: for the store with
one active session started at 0, legacy End at clock 7000 leaves every
stored `duration` unchanged and logs a `session_end` event whose details
carry `duration = 7`. -/
theorem C2_duration_never_written_witness :
    (endLegacy dbOne (some "s1") 7000 7000 true).2.sessions.map Session.duration
      = dbOne.sessions.map Session.duration ∧
    ((endLegacy dbOne (some "s1") 7000 7000 true).2.events.drop
        dbOne.events.length).map Event.details
      = [[("duration", MVal.q (((7000 : ℚ) - (0 : ℚ)) / 1000))]] := by
  refine ⟨(C2_duration_never_written dbOne (some "s1") none none none none "x"
      0 0 7000 7000 0 true true true true).2.1, ?_⟩
  exact (C2_duration_never_written dbOne (some "s1") none none none none "x"
      0 0 7000 7000 0 true true true true).2.2.2.2 sAlice (by rfl) (by rfl)

/-! ## Claim C3 -/

/-- Claim C3 as stated is false: `POST /api/events` only checks the
*presence* of `sessionId` and `type` before touching the store.  For an
out-of-enumeration `type` against an existing session, the route first
performs the `Session.findOne` store access and then lets `Event.create`
reject the document, which its `catch` converts to HTTP 500 — not the
claimed validation 400. -/
theorem C3_counterexample_bad_type_is_500 :
    (logOne dbOne bodyBadType reqA 1000 true).1.status = 500 ∧
    ¬ (logOne dbOne bodyBadType reqA 1000 true).1.status = 400 ∧
    (logOne dbOne bodyBadType reqA 1000 true).2.events = dbOne.events := by
  refine ⟨rfl, by decide, rfl⟩

/-- C3 amended: a missing `sessionId` or `type` fails with 400 before any
store access (the store is untouched); with both present, the session
lookup runs first — an absent session gives 404 even for a bad `type` —
and an out-of-enumeration `type` on an existing session is rejected at the
`Event.create` store write, which the route reports as 500 with nothing
persisted. -/
theorem C3_type_validation (db : DB) (body : LogOneBody) (req : Request)
    (now : Nat) (ok : Bool) :
    ((truthy body.sessionId && truthy body.type) = false →
      (logOne db body req now ok).1.status = 400 ∧ (logOne db body req now ok).2 = db)
    ∧ (truthy body.sessionId = true → truthy body.type = true →
       findSession db (body.sessionId.getD "") = none →
      (logOne db body req now ok).1.status = 404 ∧ (logOne db body req now ok).2 = db)
    ∧ (∀ s, truthy body.sessionId = true → truthy body.type = true →
       findSession db (body.sessionId.getD "") = some s →
       eventTypeEnum.contains (body.type.getD "") = false →
      (logOne db body req now ok).1.status = 500 ∧ (logOne db body req now ok).2 = db) := by
  refine ⟨?_, ?_, ?_⟩
  · intro h
    simp [logOne, h]
  · intro h1 h2 hfind
    simp [logOne, h1, h2, hfind]
  · intro s h1 h2 hfind henum
    have hval : eventValid (mkLogOneEvent body req now) = false := by
      have h : ¬ (body.type.getD "" ∈ eventTypeEnum) := by simpa using henum
      simp [eventValid, mkLogOneEvent, h]
    simp [logOne, h1, h2, hfind, hval]

/-- Concrete instance of `C3_type_validation`: a missing `type` is a 400
with the store untouched; a bad `type` for an unknown session is a 404;
a bad `type` for the existing session `s1` is a 500 with nothing
persisted. -/
theorem C3_type_validation_witness :
    (logOne dbOne bodyNoType reqA 1000 true).1.status = 400 ∧
    (logOne dbOne bodyBadTypeNoSession reqA 1000 true).1.status = 404 ∧
    (logOne dbOne bodyBadType reqA 1000 true).1.status = 500 := by
  refine ⟨?_, ?_, ?_⟩
  · exact ((C3_type_validation dbOne bodyNoType reqA 1000 true).1 (by rfl)).1
  · exact ((C3_type_validation dbOne bodyBadTypeNoSession reqA 1000 true).2.1
      (by rfl) (by rfl) (by rfl)).1
  · exact ((C3_type_validation dbOne bodyBadType reqA 1000 true).2.2 sAlice
      (by rfl) (by rfl) (by rfl) (by rfl)).1

/-! ## Claim C4 -/

/-- Claim C4 is the schema intent (`EventSchema.source` defaults to
`system`) but the routes break it: `POST /api/events` destructures
`source = \'frontend\'` and `POST /api/events/batch` applies
`event.source || \'frontend\'`, and `frontend` is not in the schema
`source` enum.  So a LogOne or LogBatch request that omits `source` is
rejected by the store validation and answered 500 — the event is never
persisted at all, let alone with `source = system`. -/
theorem C4_omitted_source_rejected :
    (mkLogOneEvent bodyNoSource reqA 1000).source = "frontend" ∧
    sourceEnum.contains "frontend" = false ∧
    (logOne dbOne bodyNoSource reqA 1000 true).1.status = 500 ∧
    (logOne dbOne bodyNoSource reqA 1000 true).2.events = dbOne.events ∧
    (logBatch dbOne (some "s1") (some [batchElemNoSource]) reqA 1000).1.status = 500 ∧
    (logBatch dbOne (some "s1") (some [batchElemNoSource]) reqA 1000).2.events
      = dbOne.events := by
  exact ⟨rfl, rfl, rfl, rfl, rfl, rfl⟩

/-! ## Claim C5 -/

/-- Claim C5 confirmed: for any `limit`/`offset` (defaults 100/0, sort
defaults timestamp/descending), `GET /api/events/session/:sessionId`
returns at most `limit` events, `count` is the returned page length,
`total` is an independent count over the same filter (unaffected by
`limit`/`offset`), and `hasMore` holds exactly when
`offset + returnedCount < total`. -/
theorem C5_pagination (db : DB) (sid : String) (q : RawQuery) :
    (queryBySession db sid q).count ≤ q.limit.getD 100
    ∧ (queryBySession db sid q).count = (queryBySession db sid q).events.length
    ∧ (queryBySession db sid q).total = (db.events.filter (matchesQuery sid q)).length
    ∧ ((queryBySession db sid q).hasMore = true ↔
        q.offset.getD 0 + (queryBySession db sid q).count
          < (queryBySession db sid q).total) := by
  refine ⟨?_, rfl, rfl, ?_⟩
  · simp only [queryBySession, List.length_take]
    exact min_le_left _ _
  · simp [queryBySession]

/-! ## Claim C6 -/

/-- Claim C6 as stated is false for the legacy `POST /api/session/start`:
its `session_start` `Event.create` is not guarded by an inner `try`, so
when the event write fails the route answers 500 — even though the Session
record was already durably written (it is present in the store). -/
theorem C6_counterexample_legacy_start_fails :
    (startLegacy { sessions := [], events := [] } (some "Alice") "sid-1" 0 false).1.status
      = 500 ∧
    (startLegacy { sessions := [], events := [] } (some "Alice") "sid-1" 0 false).1.success
      = false ∧
    ((startLegacy { sessions := [], events := [] } (some "Alice") "sid-1" 0
        false).2.sessions.map Session.sessionId) = ["sid-1"] := by
  exact ⟨rfl, rfl, rfl⟩

/-- C6 amended: only the richer `POST /api/session` swallows a
`session_start` event-write failure and still answers 201 with the fresh
id (the session persisted, no event recorded); the legacy
`POST /api/session/start` turns the same failure into a 500 — with the
session nevertheless already persisted. -/
theorem C6_start_event_failure (db : DB) (name examId : Option String)
    (m : Option Meta) (newId : String) (now : Nat)
    (hname : truthy name = true) :
    (startRich db name examId m newId now false).1.status = 201 ∧
    (startRich db name examId m newId now false).1.success = true ∧
    (startRich db name examId m newId now false).1.sessionId = some newId ∧
    ((startRich db name examId m newId now false).2.sessions.map Session.sessionId
      = db.sessions.map Session.sessionId ++ [newId]) ∧
    (startRich db name examId m newId now false).2.events = db.events ∧
    (startLegacy db name newId now false).1.status = 500 ∧
    (startLegacy db name newId now false).1.success = false ∧
    ((startLegacy db name newId now false).2.sessions.map Session.sessionId
      = db.sessions.map Session.sessionId ++ [newId]) := by
  refine ⟨?_, ?_, ?_, ?_, ?_, ?_, ?_, ?_⟩ <;>
    simp [startRich, startLegacy, hname]

/-- Concrete instance of `C6_start_event_failure`. -/
theorem C6_start_event_failure_witness :
    (startRich { sessions := [], events := [] } (some "Alice") none none "sid-1" 0
      false).1.status = 201 ∧
    (startLegacy { sessions := [], events := [] } (some "Alice") "sid-1" 0
      false).1.status = 500 := by
  exact ⟨(C6_start_event_failure { sessions := [], events := [] } (some "Alice")
      none none "sid-1" 0 (by decide)).1,
    (C6_start_event_failure { sessions := [], events := [] } (some "Alice")
      none none "sid-1" 0 (by decide)).2.2.2.2.2.1⟩

/-! ## Claim C7 -/

/-- Claim C7 as stated is false in its response clause: when the
session-side reference update (`Session.findByIdAndUpdate`) fails, the
Event is indeed already persisted (the write order holds), but the
route's `catch` answers 500 — it does not "still return success for the
event write". -/
theorem C7_counterexample_update_failure_is_500 :
    (logOne dbOne bodyValid reqA 1000 false).1.status = 500 ∧
    (logOne dbOne bodyValid reqA 1000 false).1.success = false ∧
    (logOne dbOne bodyValid reqA 1000 false).2.events
      = [mkLogOneEvent bodyValid reqA 1000] := by
  exact ⟨rfl, rfl, rfl⟩

/-- C7 amended: on the valid path the Event write precedes the
session-side update — even when that update fails, the event is already
appended to the store — but the route then answers 500, not success; when
the update succeeds the route answers 201 and additionally appends the
event reference to the owning session. -/
theorem C7_event_write_precedes_session_update (db : DB) (body : LogOneBody)
    (req : Request) (now : Nat)
    (h1 : truthy body.sessionId = true) (h2 : truthy body.type = true)
    (hsess : (findSession db (body.sessionId.getD "")).isSome = true)
    (hval : eventValid (mkLogOneEvent body req now) = true) :
    ((logOne db body req now false).2.events
      = db.events ++ [mkLogOneEvent body req now]) ∧
    (logOne db body req now false).1.status = 500 ∧
    (logOne db body req now false).1.success = false ∧
    ((logOne db body req now true).2.events
      = db.events ++ [mkLogOneEvent body req now]) ∧
    (logOne db body req now true).1.status = 201 ∧
    (logOne db body req now true).1.success = true := by
  rcases hfind : findSession db (body.sessionId.getD "") with _ | s
  · rw [hfind] at hsess
    exact absurd hsess (by simp)
  · refine ⟨?_, ?_, ?_, ?_, ?_, ?_⟩ <;>
      simp [logOne, h1, h2, hfind, hval, pushEventRef]

/-- Concrete instance of `C7_event_write_precedes_session_update`: for the
valid body against `dbOne`, the failed-update run answers 500 with the
event persisted, the successful run answers 201. -/
theorem C7_event_write_precedes_session_update_witness :
    (logOne dbOne bodyValid reqA 1000 false).2.events
      = dbOne.events ++ [mkLogOneEvent bodyValid reqA 1000] ∧
    (logOne dbOne bodyValid reqA 1000 false).1.status = 500 ∧
    (logOne dbOne bodyValid reqA 1000 true).1.status = 201 := by
  refine ⟨(C7_event_write_precedes_session_update dbOne bodyValid reqA 1000
      (by rfl) (by rfl) (by rfl) (by rfl)).1, ?_, ?_⟩
  · exact (C7_event_write_precedes_session_update dbOne bodyValid reqA 1000
      (by rfl) (by rfl) (by rfl) (by rfl)).2.1
  · exact (C7_event_write_precedes_session_update dbOne bodyValid reqA 1000
      (by rfl) (by rfl) (by rfl) (by rfl)).2.2.2.2.1

/-! ## Claim C8 -/

/-- Claim C8 confirmed (for batches whose elements pass the Event schema
validation after per-element defaulting): LogBatch of N events for an
existing session inserts exactly the N prepared events in one bulk
append, answers 201 with `count = N` and N event ids, and every prepared
event carries the supplied `sessionId`, the caller's `ip`/`userAgent` and
the `batch: true` marker in its metadata. -/
theorem C8_batch_inserts_all (db : DB) (sid : String) (evs : List BatchEventBody)
    (req : Request) (now : Nat)
    (hsid : sid ≠ "") (hne : evs ≠ [])
    (hsess : (findSession db sid).isSome = true)
    (hval : (evs.map (mkBatchEvent sid req now)).all eventValid = true) :
    (logBatch db (some sid) (some evs) req now).1.status = 201 ∧
    (logBatch db (some sid) (some evs) req now).1.success = true ∧
    (logBatch db (some sid) (some evs) req now).1.count = some evs.length ∧
    (∃ ids, (logBatch db (some sid) (some evs) req now).1.eventIds = some ids ∧
      ids.length = evs.length) ∧
    ((logBatch db (some sid) (some evs) req now).2.events
      = db.events ++ evs.map (mkBatchEvent sid req now)) ∧
    (∀ e ∈ evs.map (mkBatchEvent sid req now),
      e.sessionId = sid ∧
      metaGet e.metadata "ip" = some (MVal.s req.ip) ∧
      metaGet e.metadata "userAgent" = some (MVal.s req.userAgent) ∧
      metaGet e.metadata "batch" = some (MVal.b true)) := by
  have htr : truthy (some sid) = true := by simp [truthy, hsid]
  rcases hfind : findSession db sid with _ | s
  · rw [hfind] at hsess
    exact absurd hsess (by simp)
  · have hcond : (!(truthy (some sid)) || evs.isEmpty) = false := by
      cases evs with
      | nil => exact absurd rfl hne
      | cons a l => simp [htr]
    refine ⟨?_, ?_, ?_, ⟨(List.range (evs.map (mkBatchEvent sid req now)).length).map
        (fun i => db.events.length + i), ?_, by simp⟩, ?_, ?_⟩
    · simp [logBatch, hcond, hfind, hval]
    · simp [logBatch, hcond, hfind, hval]
    · simp [logBatch, hcond, hfind, hval]
    · simp [logBatch, hcond, hfind, hval]
    · simp [logBatch, hcond, hfind, hval, pushEventRef]
    · intro e he
      rcases List.mem_map.mp he with ⟨b, _, rfl⟩
      exact ⟨rfl, metaGet_batch_ip _ _ _, metaGet_batch_ua _ _ _,
        metaGet_batch_marker _ _ _⟩

/-- Concrete instance of `C8_batch_inserts_all`: a two-element valid batch
for session `s1` answers 201 with `count = 2` and two event ids. -/
theorem C8_batch_inserts_all_witness :
    (logBatch dbOne (some "s1") (some [batchElemValid, batchElemValid])
      reqA 1000).1.status = 201 ∧
    (logBatch dbOne (some "s1") (some [batchElemValid, batchElemValid])
      reqA 1000).1.count = some 2 := by
  refine ⟨?_, ?_⟩
  · exact (C8_batch_inserts_all dbOne "s1" [batchElemValid, batchElemValid] reqA 1000
      (by decide) (by simp) (by rfl) (by rfl)).1
  · exact (C8_batch_inserts_all dbOne "s1" [batchElemValid, batchElemValid] reqA 1000
      (by decide) (by simp) (by rfl) (by rfl)).2.2.1

/-! ## Claim C9 -/

/-- Claim C9 confirmed: on a detection tick, zero detected faces sets the
no-face status and logs the no-face event; more than one face sets the
multiple-faces status and logs its event; exactly one face is classified
by the face-area-to-frame-area ratio — below 0.1 the status is
`Move closer` (too far), above 0.3 it is `Move back` (too close), and in
between it is the focused status; no event is logged in the single-face
branches. -/
theorem C9_tick_classification (dets : List Box) (cw ch : ℚ) :
    (dets.length = 0 →
      tickFaceStatus dets cw ch = (STATUS_NO_FACE, some "No face detected"))
    ∧ (dets.length > 1 →
      tickFaceStatus dets cw ch = (STATUS_MULTIPLE_FACES, some "Multiple faces detected"))
    ∧ (∀ d, dets = [d] →
        (d.width * d.height / (cw * ch) < 1/10 →
          tickFaceStatus dets cw ch = ("Move closer", none))
        ∧ (d.width * d.height / (cw * ch) > 3/10 →
          tickFaceStatus dets cw ch = ("Move back", none))
        ∧ (1/10 ≤ d.width * d.height / (cw * ch) →
           d.width * d.height / (cw * ch) ≤ 3/10 →
          tickFaceStatus dets cw ch = (STATUS_FOCUSED, none))) := by
  refine ⟨?_, ?_, ?_⟩
  · intro h
    simp [tickFaceStatus, h]
  · intro h
    have h0 : ¬ dets.length = 0 := by omega
    simp [tickFaceStatus, h0, h]
  · rintro d rfl
    have hsingle : tickFaceStatus [d] cw ch =
        (if d.width * d.height / (cw * ch) < 1/10 then ("Move closer", none)
         else if d.width * d.height / (cw * ch) > 3/10 then ("Move back", none)
         else (STATUS_FOCUSED, none)) := rfl
    refine ⟨?_, ?_, ?_⟩
    · intro hlt
      rw [hsingle, if_pos hlt]
    · intro hgt
      have hnlt : ¬ d.width * d.height / (cw * ch) < 1/10 := by linarith
      rw [hsingle, if_neg hnlt, if_pos hgt]
    · intro hge hle
      have hnlt : ¬ d.width * d.height / (cw * ch) < 1/10 := not_lt.mpr hge
      have hngt : ¬ d.width * d.height / (cw * ch) > 3/10 := not_lt.mpr hle
      rw [hsingle, if_neg hnlt, if_neg hngt]

/-- Concrete instances of `C9_tick_classification`: no face, two faces,
and one face at ratios 0.09 (too far), 0.36 (too close), 0.25 (focused)
on a 100 by 100 frame. -/
theorem C9_tick_classification_witness :
    tickFaceStatus [] 100 100 = (STATUS_NO_FACE, some "No face detected")
    ∧ tickFaceStatus [⟨0, 0, 30, 30⟩, ⟨50, 50, 30, 30⟩] 100 100
      = (STATUS_MULTIPLE_FACES, some "Multiple faces detected")
    ∧ tickFaceStatus [⟨0, 0, 30, 30⟩] 100 100 = ("Move closer", none)
    ∧ tickFaceStatus [⟨0, 0, 60, 60⟩] 100 100 = ("Move back", none)
    ∧ tickFaceStatus [⟨0, 0, 50, 50⟩] 100 100 = (STATUS_FOCUSED, none) := by
  refine ⟨?_, ?_, ?_, ?_, ?_⟩
  · exact (C9_tick_classification [] 100 100).1 rfl
  · exact (C9_tick_classification [⟨0, 0, 30, 30⟩, ⟨50, 50, 30, 30⟩] 100 100).2.1
      (by norm_num)
  · exact ((C9_tick_classification [⟨0, 0, 30, 30⟩] 100 100).2.2 ⟨0, 0, 30, 30⟩ rfl).1
      (by norm_num)
  · exact ((C9_tick_classification [⟨0, 0, 60, 60⟩] 100 100).2.2 ⟨0, 0, 60, 60⟩ rfl).2.1
      (by norm_num)
  · exact ((C9_tick_classification [⟨0, 0, 50, 50⟩] 100 100).2.2 ⟨0, 0, 50, 50⟩
      rfl).2.2 (by norm_num) (by norm_num)

/-! ## Claim C10 -/

/-- Claim C10 confirmed: every event a LogOne or LogBatch request adds to
the store carries the server-observed `ip` and `userAgent` in its
metadata, whatever the client supplied — the server keys are inserted
after the client bag, so client-supplied `ip`/`userAgent` keys never
influence the stored values. -/
theorem C10_server_metadata_wins (db : DB) (body : LogOneBody)
    (sid : Option String) (evs : Option (List BatchEventBody)) (req : Request)
    (now : Nat) (ok : Bool) :
    (∀ e ∈ (logOne db body req now ok).2.events.drop db.events.length,
      metaGet e.metadata "ip" = some (MVal.s req.ip) ∧
      metaGet e.metadata "userAgent" = some (MVal.s req.userAgent))
    ∧ (∀ e ∈ (logBatch db sid evs req now).2.events.drop db.events.length,
      metaGet e.metadata "ip" = some (MVal.s req.ip) ∧
      metaGet e.metadata "userAgent" = some (MVal.s req.userAgent)) := by
  constructor
  · intro e he
    have hsuffix : (logOne db body req now ok).2.events.drop db.events.length = []
        ∨ (logOne db body req now ok).2.events.drop db.events.length
          = [mkLogOneEvent body req now] := by
      by_cases h1 : (!(truthy body.sessionId && truthy body.type)) = true
      · exact Or.inl (by simp [logOne, h1])
      · rcases hfind : findSession db (body.sessionId.getD "") with _ | s
        · exact Or.inl (by simp [logOne, h1, hfind])
        · by_cases h2 : (!eventValid (mkLogOneEvent body req now)) = true
          · exact Or.inl (by simp [logOne, h1, hfind, h2])
          · by_cases h3 : (!ok) = true
            · exact Or.inr (by simp [logOne, h1, hfind, h2, h3, List.drop_left])
            · exact Or.inr
                (by simp [logOne, h1, hfind, h2, h3, pushEventRef, List.drop_left])
    rcases hsuffix with h | h
    · rw [h] at he
      exact absurd he (List.not_mem_nil e)
    · rw [h] at he
      obtain rfl := List.mem_singleton.mp he
      exact ⟨metaGet_enrich_ip _ _ _, metaGet_enrich_ua _ _ _⟩
  · intro e he
    have hsuffix : (logBatch db sid evs req now).2.events.drop db.events.length = []
        ∨ (logBatch db sid evs req now).2.events.drop db.events.length
          = (evs.getD []).map (mkBatchEvent (sid.getD "") req now) := by
      by_cases h1 : (!(truthy sid) || (evs.getD []).isEmpty) = true
      · exact Or.inl (by simp [logBatch, h1])
      · rcases hfind : findSession db (sid.getD "") with _ | s
        · exact Or.inl (by simp [logBatch, h1, hfind])
        · by_cases h2 :
            (!(((evs.getD []).map (mkBatchEvent (sid.getD "") req now)).all eventValid))
              = true
          · exact Or.inl (by simp [logBatch, h1, hfind, h2])
          · exact Or.inr
              (by simp [logBatch, h1, hfind, h2, pushEventRef, List.drop_left])
    rcases hsuffix with h | h
    · rw [h] at he
      exact absurd he (List.not_mem_nil e)
    · rw [h] at he
      rcases List.mem_map.mp he with ⟨b, _, rfl⟩
      exact ⟨metaGet_batch_ip _ _ _, metaGet_batch_ua _ _ _⟩

/-- Concrete instance of `C10_server_metadata_wins`: the client metadata
of `bodyHostile` sets `ip` to `6.6.6.6` and `userAgent` to `spoofed`, yet
the event the request persists stores the server-observed values. -/
theorem C10_server_metadata_wins_witness :
    metaGet (mkLogOneEvent bodyHostile reqA 1000).metadata "ip"
      = some (MVal.s "203.0.113.5") ∧
    metaGet (mkLogOneEvent bodyHostile reqA 1000).metadata "userAgent"
      = some (MVal.s "agent-1") := by
  exact (C10_server_metadata_wins dbOne bodyHostile (some "s1") none reqA 1000
      true).1 (mkLogOneEvent bodyHostile reqA 1000)
    (by exact List.mem_singleton.mpr rfl)

end Proctoring
